import Mathlib

/-!
# Verification of the paude session and isolation control plane

Shallow embedding of the parts of `paude` (a tool that runs an AI coding
assistant inside an isolated container) that its specification makes claims
about: the image hash (`src/paude/hash.py`), the base64 workspace-path
annotation, the mount builder (`src/paude/mounts.py`), the OpenShift backend's
NetworkPolicy generation and session lifecycle
(`src/paude/backends/openshift.py`), the Podman backend
(`src/paude/backends/podman.py`), and the workspace sync paths.

Machine bytes are modelled as `Nat` values below 256; Kubernetes object
dictionaries are modelled as typed structures whose fields mirror the JSON
keys built by the Python code; the cluster's object graph is an explicit
`ClusterState` threaded through the lifecycle operations.
-/

namespace Paude

set_option maxRecDepth 16384

/-! ## Bytes, hex and UTF-8 helpers -/

/-- Lower-case hex digit for a value below 16 (`hexdigest` building block). -/
def hexDigit (n : Nat) : Char :=
  if n < 10 then Char.ofNat (48 + n) else Char.ofNat (87 + n)

/-- Render a list of bytes as a lower-case hex string, as Python's
`hashlib.sha256(...).hexdigest()` does. -/
def hexOfBytes (bs : List Nat) : String :=
  String.mk (bs.flatMap (fun b => [hexDigit (b / 16), hexDigit (b % 16)]))

/-- UTF-8 encoding of one Unicode code point (Python `str.encode("utf-8")`
for a single character). -/
def utf8Char (n : Nat) : List Nat :=
  if n < 0x80 then [n]
  else if n < 0x800 then [0xc0 + n / 64, 0x80 + n % 64]
  else if n < 0x10000 then
    [0xe0 + n / 4096, 0x80 + n / 64 % 64, 0x80 + n % 64]
  else
    [0xf0 + n / 262144, 0x80 + n / 4096 % 64, 0x80 + n / 64 % 64, 0x80 + n % 64]

/-- UTF-8 bytes of a string (Python `str.encode("utf-8")`). -/
def utf8Bytes (s : String) : List Nat :=
  s.data.flatMap (fun c => utf8Char c.toNat)

/-! ## SHA-256 (`hashlib.sha256`)

Word arithmetic is on `Nat` with explicit reduction modulo `2 ^ 32`.
-/

def w32 : Nat := 4294967296

def rotr32 (n x : Nat) : Nat :=
  ((x >>> n) ||| (x <<< (32 - n))) % w32

/-- Trial-division primality check (used only to build the round-constant
tables below). -/
def isPrimeNat (n : Nat) : Bool :=
  2 ≤ n && (List.range n).all (fun d => d < 2 || n % d ≠ 0)

/-- The first 64 primes (2 through 311), the seed of the SHA-256 constants. -/
def sha256Primes : List Nat :=
  ((List.range 312).filter isPrimeNat).take 64

/-- Integer cube root by bisection (`fuel`-driven; the largest `r` with
`r ^ 3 ≤ n`). -/
def natCbrtGo (n : Nat) : Nat → Nat → Nat → Nat
  | lo, _, 0 => lo
  | lo, hi, fuel + 1 =>
    if hi ≤ lo + 1 then lo
    else
      let mid := (lo + hi) / 2
      if mid * mid * mid ≤ n then natCbrtGo n mid hi fuel
      else natCbrtGo n lo mid fuel

def natCbrt (n : Nat) : Nat := natCbrtGo n 0 (n + 1) (n + 2)

/-- Integer square root by bisection (the largest `r` with `r ^ 2 ≤ n`). -/
def natSqrtGo (n : Nat) : Nat → Nat → Nat → Nat
  | lo, _, 0 => lo
  | lo, hi, fuel + 1 =>
    if hi ≤ lo + 1 then lo
    else
      let mid := (lo + hi) / 2
      if mid * mid ≤ n then natSqrtGo n mid hi fuel
      else natSqrtGo n lo mid fuel

def natSqrtB (n : Nat) : Nat := natSqrtGo n 0 (n + 1) (n + 2)

/-- The 64 SHA-256 round constants: the first 32 bits of the fractional
parts of the cube roots of the first 64 primes. -/
def sha256K : List Nat :=
  sha256Primes.map (fun p => natCbrt (p * 2 ^ 96) % 2 ^ 32)

/-- The 8 initial hash words: the first 32 bits of the fractional parts of
the square roots of the first 8 primes. -/
def sha256H0 : List Nat :=
  (sha256Primes.take 8).map (fun p => natSqrtB (p * 2 ^ 64) % 2 ^ 32)

/-- Big-endian bytes (most significant first) of `n`, `k` bytes wide. -/
def beBytes (k n : Nat) : List Nat :=
  match k with
  | 0 => []
  | k + 1 => beBytes k (n / 256) ++ [n % 256]

/-- SHA-256 padding: append `0x80`, zeros, and the 64-bit big-endian bit
length, reaching a multiple of 64 bytes. -/
def sha256Pad (msg : List Nat) : List Nat :=
  let l := msg.length
  let zeros := (64 - (l + 9) % 64) % 64
  msg ++ [0x80] ++ List.replicate zeros 0 ++ beBytes 8 (l * 8)

/-- Combine 4 big-endian bytes into one 32-bit word. -/
def word4 (a b c d : Nat) : Nat := ((a * 256 + b) * 256 + c) * 256 + d

/-- Split a 64-byte chunk into its initial 16 message-schedule words. -/
def chunkWords : List Nat → List Nat
  | a :: b :: c :: d :: rest => word4 a b c d :: chunkWords rest
  | _ => []

/-- Extend 16 words to 64 words of the message schedule. -/
def extendSchedule (ws : List Nat) : Nat → List Nat
  | 0 => ws
  | n + 1 =>
    let i := ws.length
    let g j := ws.getD (i - j) 0
    let s0 :=
      (rotr32 7 (g 15)) ^^^ (rotr32 18 (g 15)) ^^^ ((g 15) >>> 3)
    let s1 :=
      (rotr32 17 (g 2)) ^^^ (rotr32 19 (g 2)) ^^^ ((g 2) >>> 10)
    extendSchedule (ws ++ [(g 16 + s0 + g 7 + s1) % w32]) n

/-- One round of SHA-256 compression on the eight working words. -/
def sha256Round (st : List Nat) (k wi : Nat) : List Nat :=
  match st with
  | [a, b, c, d, e, f, g, h] =>
    let s1 := (rotr32 6 e) ^^^ (rotr32 11 e) ^^^ (rotr32 25 e)
    let ch := (e &&& f) ^^^ ((w32 - 1 - e) &&& g)
    let t1 := (h + s1 + ch + k + wi) % w32
    let s0 := (rotr32 2 a) ^^^ (rotr32 13 a) ^^^ (rotr32 22 a)
    let mj := (a &&& b) ^^^ (a &&& c) ^^^ (b &&& c)
    let t2 := (s0 + mj) % w32
    [(t1 + t2) % w32, a, b, c, (d + t1) % w32, e, f, g]
  | st => st

/-- Compress one 64-byte chunk into the running hash state. -/
def sha256Chunk (h : List Nat) (chunk : List Nat) : List Nat :=
  let ws := extendSchedule (chunkWords chunk) 48
  let final := (sha256K.zip ws).foldl (fun st kw => sha256Round st kw.1 kw.2) h
  (h.zip final).map (fun p => (p.1 + p.2) % w32)

/-- Split the padded message into 64-byte chunks (fuel-driven for
termination; fuel is the list length). -/
def toChunks : Nat → List Nat → List (List Nat)
  | 0, _ => []
  | _, [] => []
  | fuel + 1, l => l.take 64 :: toChunks fuel (l.drop 64)

/-- SHA-256 digest (32 bytes) of a byte list. -/
def sha256 (msg : List Nat) : List Nat :=
  let padded := sha256Pad msg
  let final := (toChunks padded.length padded).foldl sha256Chunk sha256H0
  final.flatMap (beBytes 4)

/-- Python `hashlib.sha256(bs).hexdigest()`. -/
def sha256Hex (bs : List Nat) : String := hexOfBytes (sha256 bs)

/-! ## `src/paude/hash.py`: `compute_config_hash`

The file contents are passed as `Option String` arguments: `none` models a
missing/absent file (`config_file is None or not config_file.exists()`), and
`some s` the text the Python code would read.
-/

/-- Embedding of `compute_config_hash` (hash.py lines 9-55): concatenate config-file text,
Dockerfile text, base-image string, entrypoint text and the version string,
append a newline, SHA-256 the UTF-8 bytes, keep the first 12 hex chars. -/
def computeConfigHash (configFile dockerfile baseImage entrypoint : Option String)
    (version : String) : String :=
  let hashInput := configFile.getD "" ++ dockerfile.getD ""
    ++ baseImage.getD "" ++ entrypoint.getD "" ++ version
  (sha256Hex (utf8Bytes (hashInput ++ "\n"))).take 12

/-- The parameter list of `compute_config_hash` as written in hash.py:
five required parameters, no defaults, no `**kwargs`. -/
def computeConfigHashParams : List String :=
  ["config_file", "dockerfile", "base_image", "entrypoint", "version"]

/-- The keyword arguments of the call in
`ImageManager.ensure_custom_image` (image.py lines 98-105): four positional
arguments followed by `workspace=` and `pip_install=`. -/
def ensureCustomImageHashKwargs : List String := ["workspace", "pip_install"]

/-- Outcome of binding a Python call against a parameter list. -/
inductive PyCallResult where
  | ok : PyCallResult
  | tooManyPositional : PyCallResult
  | unexpectedKeyword (kw : String) : PyCallResult
  | duplicateArgument (kw : String) : PyCallResult
  | missingArgument (p : String) : PyCallResult
deriving DecidableEq

/-- Python call binding for a function whose parameters are all required
positional-or-keyword parameters without defaults: positional arguments fill
parameters left to right, keyword arguments must name a parameter not already
filled, and every parameter must end up bound; otherwise the call raises
`TypeError`. -/
def bindPythonCall (params : List String) (numPositional : Nat)
    (kwargs : List String) : PyCallResult :=
  if params.length < numPositional then .tooManyPositional
  else
    let byPosition := params.take numPositional
    let remaining := params.drop numPositional
    match kwargs.find? (fun k => !params.contains k) with
    | some k => .unexpectedKeyword k
    | none =>
      match kwargs.find? (fun k => byPosition.contains k) with
      | some k => .duplicateArgument k
      | none =>
        match remaining.find? (fun p => !kwargs.contains p) with
        | some p => .missingArgument p
        | none => .ok

/-! ## Base64 and the workspace-path annotation
(`_encode_path` / `_decode_path`, openshift.py lines 124-145)

`_encode_path` is `base64.b64encode(str(path).encode()).decode()` and
`_decode_path` is `Path(base64.b64decode(encoded.encode()).decode())`.
Paths are modelled by their UTF-8 byte sequences, so the pair reduces to
standard base64 over bytes; `61` is the ASCII code of the `=` padding
character.
-/

/-- The base64 alphabet: sextet value to ASCII code. -/
def b64char (s : Nat) : Nat :=
  if s < 26 then 65 + s
  else if s < 52 then 97 + (s - 26)
  else if s < 62 then 48 + (s - 52)
  else if s = 62 then 43
  else 47

/-- Inverse of the base64 alphabet: ASCII code to sextet value. -/
def b64index (c : Nat) : Option Nat :=
  if 65 ≤ c ∧ c ≤ 90 then some (c - 65)
  else if 97 ≤ c ∧ c ≤ 122 then some (26 + (c - 97))
  else if 48 ≤ c ∧ c ≤ 57 then some (52 + (c - 48))
  else if c = 43 then some 62
  else if c = 47 then some 63
  else none

/-- Python `base64.b64encode` on bytes: each 3-byte group becomes 4 alphabet
characters; a trailing 1- or 2-byte group is padded with `=`. -/
def b64encodeBytes : List Nat → List Nat
  | [] => []
  | [a] => [b64char (a / 4), b64char (a % 4 * 16), 61, 61]
  | [a, b] => [b64char (a / 4), b64char (a % 4 * 16 + b / 16),
               b64char (b % 16 * 4), 61]
  | a :: b :: c :: rest =>
    b64char (a / 4) :: b64char (a % 4 * 16 + b / 16)
      :: b64char (b % 16 * 4 + c / 64) :: b64char (c % 64)
      :: b64encodeBytes rest

/-- Python `base64.b64decode` on bytes: consume 4 characters at a time; `=` padding
is only legal at the very end and yields a short final group. Returns `none`
on malformed input (Python raises `binascii.Error`). -/
def b64decodeBytes : List Nat → Option (List Nat)
  | [] => some []
  | c0 :: c1 :: c2 :: c3 :: rest =>
    match b64index c0, b64index c1 with
    | some s0, some s1 =>
      if c2 = 61 then
        if c3 = 61 ∧ rest = [] then some [s0 * 4 + s1 / 16] else none
      else
        match b64index c2 with
        | some s2 =>
          if c3 = 61 then
            if rest = [] then some [s0 * 4 + s1 / 16, s1 % 16 * 16 + s2 / 4]
            else none
          else
            match b64index c3 with
            | some s3 =>
              (b64decodeBytes rest).map
                (fun tl => (s0 * 4 + s1 / 16) :: (s1 % 16 * 16 + s2 / 4)
                  :: (s2 % 4 * 64 + s3) :: tl)
            | none => none
        | none => none
    | _, _ => none
  | _ => none

/-- Encoder `_encode_path` on the UTF-8 bytes of `str(path)`. -/
def encodePath (pathBytes : List Nat) : List Nat := b64encodeBytes pathBytes

/-- Decoder `_decode_path` on the UTF-8 bytes of the annotation string. -/
def decodePath (encoded : List Nat) : Option (List Nat) := b64decodeBytes encoded

theorem b64index_b64char {s : Nat} (hs : s < 64) : b64index (b64char s) = some s := by
  have : ∀ t : Fin 64, b64index (b64char t.val) = some t.val := by decide
  exact this ⟨s, hs⟩

theorem b64char_ne_pad {s : Nat} (hs : s < 64) : b64char s ≠ 61 := by
  have : ∀ t : Fin 64, b64char t.val ≠ 61 := by decide
  exact this ⟨s, hs⟩

theorem b64encode_decode (bs : List Nat) (h : ∀ b ∈ bs, b < 256) :
    b64decodeBytes (b64encodeBytes bs) = some bs := by
  induction bs using b64encodeBytes.induct with
  | case1 => rfl
  | case2 a =>
    have ha : a < 256 := h a (by simp)
    have h0 : a / 4 < 64 := by omega
    have h1 : a % 4 * 16 < 64 := by omega
    simp [b64encodeBytes, b64decodeBytes, b64index_b64char h0,
      b64index_b64char h1]
    omega
  | case3 a b =>
    have ha : a < 256 := h a (by simp)
    have hb : b < 256 := h b (by simp)
    have h0 : a / 4 < 64 := by omega
    have h1 : a % 4 * 16 + b / 16 < 64 := by omega
    have h2 : b % 16 * 4 < 64 := by omega
    simp [b64encodeBytes, b64decodeBytes, b64index_b64char h0,
      b64index_b64char h1, b64index_b64char h2, b64char_ne_pad h2]
    constructor
    · omega
    · omega
  | case4 a b c rest ih =>
    have ha : a < 256 := h a (by simp)
    have hb : b < 256 := h b (by simp)
    have hc : c < 256 := h c (by simp)
    have h0 : a / 4 < 64 := by omega
    have h1 : a % 4 * 16 + b / 16 < 64 := by omega
    have h2 : b % 16 * 4 + c / 64 < 64 := by omega
    have h3 : c % 64 < 64 := by omega
    have hrest : ∀ x ∈ rest, x < 256 := fun x hx => h x (by simp [hx])
    have e1 : a / 4 * 4 + (a % 4 * 16 + b / 16) / 16 = a := by omega
    have e2 : (a % 4 * 16 + b / 16) % 16 * 16 + (b % 16 * 4 + c / 64) / 4 = b := by
      omega
    have e3 : (b % 16 * 4 + c / 64) % 4 * 64 + c % 64 = c := by omega
    simp [b64encodeBytes, b64decodeBytes, b64index_b64char h0,
      b64index_b64char h1, b64index_b64char h2, b64index_b64char h3,
      b64char_ne_pad h2, b64char_ne_pad h3, ih hrest, e1, e2, e3]

/-! ## `src/paude/mounts.py`: `build_mounts`

The host filesystem is abstracted by `HostFS`: `resolves p` is
`resolve_path(p)` (`some` of the symlink-resolved physical path when the
path exists, `none` otherwise), and `isDir`/`isFile` are `Path.is_dir` /
`Path.is_file` on already-resolved paths.
-/

structure HostFS where
  resolves : String → Option String
  isDir : String → Bool
  isFile : String → Bool

/-- Step 1 of `build_mounts` (mounts.py lines 45-51): the workspace mounted
read-write at the identical (resolved) host path; falls back to the raw path
when resolution fails. -/
def workspaceMountOf (fs : HostFS) (workspace : String) : List String :=
  match fs.resolves workspace with
  | some rw => ["-v", rw ++ ":" ++ rw ++ ":rw"]
  | none => ["-v", workspace ++ ":" ++ workspace ++ ":rw"]

/-- Step 2 (lines 53-57): gcloud config, read-only, only when the resolved
path is a directory. -/
def gcloudMountOf (fs : HostFS) (home : String) : List String :=
  match fs.resolves (home ++ "/.config/gcloud") with
  | some rg =>
    if fs.isDir rg then ["-v", rg ++ ":/home/paude/.config/gcloud:ro"] else []
  | none => []

/-- Steps 3 and 4 (lines 59-68): Claude seed directory read-only, and, when
present, the plugins directory read-only at its original host path. -/
def claudeMountsOf (fs : HostFS) (home : String) : List String :=
  match fs.resolves (home ++ "/.claude") with
  | some rc =>
    if fs.isDir rc then
      ["-v", rc ++ ":/tmp/claude.seed:ro"] ++
        (if fs.isDir (rc ++ "/plugins") then
          ["-v", rc ++ "/plugins:" ++ rc ++ "/plugins:ro"]
        else [])
    else []
  | none => []

/-- Step 5 (lines 70-74): gitconfig, read-only. -/
def gitconfigMountOf (fs : HostFS) (home : String) : List String :=
  match fs.resolves (home ++ "/.gitconfig") with
  | some rg =>
    if fs.isFile rg then ["-v", rg ++ ":/home/paude/.gitconfig:ro"] else []
  | none => []

/-- Step 6 (lines 76-80): claude.json seed, read-only. -/
def claudeJsonMountOf (fs : HostFS) (home : String) : List String :=
  match fs.resolves (home ++ "/.claude.json") with
  | some rj =>
    if fs.isFile rj then ["-v", rj ++ ":/tmp/claude.json.seed:ro"] else []
  | none => []

/-- Embedding of `build_mounts(workspace, home)` (mounts.py lines 25-82): podman `-v`
argument pairs, in source order. -/
def buildMounts (fs : HostFS) (workspace home : String) : List String :=
  workspaceMountOf fs workspace ++ gcloudMountOf fs home
    ++ claudeMountsOf fs home ++ gitconfigMountOf fs home
    ++ claudeJsonMountOf fs home

/-! ## NetworkPolicy generation (openshift.py lines 702-831)

The Kubernetes dictionaries built by `_ensure_network_policy` and
`_ensure_network_policy_permissive` are modelled as typed structures whose
fields mirror the JSON keys the Python code emits.
-/

/-- One entry of an egress rule's `ports` array. -/
structure PortEntry where
  protocol : String
  port : Nat
deriving DecidableEq, Repr

/-- One destination object in an egress rule's `to` array. Each optional
field mirrors the corresponding JSON key (`none` means the key is absent). -/
structure EgressDest where
  ipBlockCidr : Option String := none
  podSelectorMatchLabels : Option (List (String × String)) := none
  namespaceSelectorMatchLabels : Option (List (String × String)) := none
deriving DecidableEq, Repr

/-- One rule of the `egress` array: `ports` (empty list when the key is
absent) and `to` (`none` when the key is absent, so the rule matches every
destination). The all-allowing rule `{}` is `ports = [], to = none`. -/
structure EgressRule where
  ports : List PortEntry := []
  toDests : Option (List EgressDest) := none
deriving DecidableEq, Repr

/-- A NetworkPolicy object as applied by the backend. -/
structure NetworkPolicySpec where
  name : String
  namespaceName : String
  labels : List (String × String)
  podSelectorMatchLabels : List (String × String)
  policyTypes : List String
  egress : List EgressRule
deriving DecidableEq, Repr

/-- The `allowed_cidrs` list of `_ensure_network_policy` (lines 727-737). -/
def allowedCidrs : List String :=
  ["142.250.0.0/16", "172.217.0.0/16", "216.58.0.0/16", "172.253.0.0/16",
   "74.125.0.0/16", "104.18.0.0/16", "172.66.0.0/16"]

/-- The `policy_spec` applied by `_ensure_network_policy` (lines 702-784):
one DNS rule allowing UDP/TCP 53 to every destination (no `to` key), and one
rule allowing TCP 443 to the `allowed_cidrs` IP blocks. -/
def ensureNetworkPolicySpec (ns sessionId : String) : NetworkPolicySpec where
  name := "paude-egress-" ++ sessionId
  namespaceName := ns
  labels := [("app", "paude"), ("session-id", sessionId),
             ("paude.io/session-name", sessionId)]
  podSelectorMatchLabels :=
    [("app", "paude"), ("paude.io/session-name", sessionId)]
  policyTypes := ["Egress"]
  egress :=
    [{ ports := [⟨"UDP", 53⟩, ⟨"TCP", 53⟩] },
     { ports := [⟨"TCP", 443⟩],
       toDests := some (allowedCidrs.map (fun cidr => { ipBlockCidr := some cidr })) }]

/-- The `policy_spec` applied by `_ensure_network_policy_permissive`
(lines 786-831): a single empty egress rule `{}` allowing all egress. -/
def ensureNetworkPolicyPermissiveSpec (ns sessionId : String) : NetworkPolicySpec where
  name := "paude-egress-" ++ sessionId
  namespaceName := ns
  labels := [("app", "paude"), ("session-id", sessionId),
             ("paude.io/session-name", sessionId)]
  podSelectorMatchLabels :=
    [("app", "paude"), ("paude.io/session-name", sessionId)]
  policyTypes := ["Egress"]
  egress := [{}]

/-! ## Session lifecycle on the OpenShift backend

The namespace's object graph is an explicit `ClusterState`; each operation
from `openshift.py` maps the state to a new state plus a result, with
`oc apply` modelled as upsert-by-name and `oc delete` as removal. The
error-path behaviour mirrors the source: every check that precedes the first
`oc apply`/`oc delete` returns with the state untouched.
-/

/-- Errors surfaced by the session lifecycle (`SessionExistsError`,
`SessionNotFoundError`, and the `ValueError` raised by an unconfirmed
delete). -/
inductive BackendError where
  | sessionExists
  | sessionNotFound
  | confirmationRequired
deriving DecidableEq, Repr

/-- A session value as returned by the persistent-session methods of
`openshift.py` (`name=`, `status=`, `container_id=`, `volume_name=`). -/
structure Session where
  name : String
  status : String
  workspace : String
  createdAt : String
  backendType : String
  containerId : Option String := none
  volumeName : Option String := none
deriving DecidableEq, Repr

/-- Structure `SessionConfig` as consumed by `OpenShiftBackend.create_session`
(fields taken from its uses and from the tests that construct it). -/
structure SessionConfig where
  name : Option String := none
  workspace : String
  image : String
  env : List (String × String) := []
  args : List String := []
  networkRestricted : Bool := true
  yolo : Bool := false
  pvcSize : String := "10Gi"
  storageClass : Option String := none

/-- Which of the fixed credential files exist (and are readable) in the
user's home directory. -/
structure HostEnv where
  hasGcloudCreds : Bool := false
  hasGitconfig : Bool := false
  hasClaudeConfig : Bool := false

/-- A labeled Secret or ConfigMap (contents are irrelevant to the claims). -/
structure LabeledObj where
  name : String
  labels : List (String × String)
deriving DecidableEq, Repr

structure VolumeMount where
  name : String
  mountPath : String
  subPath : Option String := none
  readOnly : Bool := false
deriving DecidableEq, Repr

/-- The `spec` of the entry of `volumeClaimTemplates`. -/
structure PvcTemplateSpec where
  accessModes : List String
  storageRequest : String
  storageClassName : Option String
deriving DecidableEq, Repr

/-- A StatefulSet object as generated by `_generate_statefulset_spec`
(openshift.py lines 1201-1365), fields mirroring the JSON keys. -/
structure StsSpec where
  name : String
  namespaceName : String
  labels : List (String × String)
  workspaceAnnotation : String
  createdAtAnnotation : String
  replicas : Nat
  serviceName : String
  selectorMatchLabels : List (String × String)
  templateLabels : List (String × String)
  image : String
  command : List String
  env : List (String × String)
  workingDir : String
  volumeMounts : List VolumeMount
  volumeClaimTemplate : PvcTemplateSpec
deriving DecidableEq, Repr

/-- The namespace's object graph: the session store IS this state. -/
structure ClusterState where
  statefulSets : List StsSpec := []
  pvcs : List String := []
  secrets : List LabeledObj := []
  configMaps : List LabeledObj := []
  netPols : List NetworkPolicySpec := []
  deployments : List String := []
  services : List String := []
deriving DecidableEq, Repr

/-- Models `oc apply` semantics for named objects: replace the object with the same
name, or append. -/
def upsertBy {α : Type} (key : α → String) (x : α) (l : List α) : List α :=
  if l.any (fun y => key y = key x) then
    l.map (fun y => if key y = key x then x else y)
  else l ++ [x]

/-- Python `dict.__setitem__` on an association list. -/
def dictSet (d : List (String × String)) (k v : String) : List (String × String) :=
  if d.any (fun p => p.1 = k) then
    d.map (fun p => if p.1 = k then (k, v) else p)
  else d ++ [(k, v)]

/-- The label set every per-session object carries. -/
def sessionLabels (sid : String) : List (String × String) :=
  [("app", "paude"), ("session-id", sid), ("paude.io/session-name", sid)]

/-- Embedding of `_generate_session_name` (openshift.py lines 103-121): sanitize the
lower-cased workspace basename and append the first 8 hex chars of the
SHA-256 of the full path. -/
def generateSessionName (workspace : String) : String :=
  let dirName := ((workspace.splitOn "/").getLastD "").toLower
  let sanitized := String.mk (dirName.data.map
    (fun c => if c.isAlphanum then c else '-'))
  let sanitized := (sanitized.dropWhile (· = '-')).dropRightWhile (· = '-')
  let sanitized := sanitized.take 20
  let sanitized := if sanitized = "" then "session" else sanitized
  let pathHash := (sha256Hex (utf8Bytes workspace)).take 8
  sanitized ++ "-" ++ pathHash

/-- Wrapper for `_encode_path` as a string-to-string function: base64 of the UTF-8
bytes, rendered with the ASCII characters of the base64 alphabet. -/
def encodePathStr (p : String) : String :=
  String.mk ((encodePath (utf8Bytes p)).map Char.ofNat)

/-- Embedding of `_create_credentials_secret` (lines 833-898): applies the labeled
`paude-gcloud-<sid>` Secret when gcloud credential files exist, else `none`. -/
def createCredentialsSecret (host : HostEnv) (st : ClusterState) (sid : String) :
    ClusterState × Option String :=
  if host.hasGcloudCreds then
    let n := "paude-gcloud-" ++ sid
    ({ st with secrets := upsertBy LabeledObj.name ⟨n, sessionLabels sid⟩ st.secrets },
     some n)
  else (st, none)

/-- Embedding of `_create_gitconfig_configmap` (lines 900-946). -/
def createGitconfigConfigmap (host : HostEnv) (st : ClusterState) (sid : String) :
    ClusterState × Option String :=
  if host.hasGitconfig then
    let n := "paude-gitconfig-" ++ sid
    ({ st with configMaps := upsertBy LabeledObj.name ⟨n, sessionLabels sid⟩ st.configMaps },
     some n)
  else (st, none)

/-- Embedding of `_create_claude_secret` (lines 948-1024). -/
def createClaudeSecret (host : HostEnv) (st : ClusterState) (sid : String) :
    ClusterState × Option String :=
  if host.hasClaudeConfig then
    let n := "paude-claude-" ++ sid
    ({ st with secrets := upsertBy LabeledObj.name ⟨n, sessionLabels sid⟩ st.secrets },
     some n)
  else (st, none)

/-- Embedding of `_generate_statefulset_spec` (lines 1201-1365): replicas 0 (start
stopped), base64 workspace annotation, PVC template, credential volume
mounts marked read-only. -/
def generateStatefulsetSpec (ns sessionName image : String)
    (env : List (String × String)) (workspace now : String)
    (gcloudSecret gitconfigCm claudeSecret : Option String)
    (pvcSize : String) (storageClass : Option String) : StsSpec :=
  let stsName := "paude-" ++ sessionName
  let volumeMounts :=
    [({ name := "workspace", mountPath := "/pvc" } : VolumeMount)]
    ++ (if gcloudSecret.isSome then
          [({ name := "gcloud-creds", mountPath := "/home/paude/.config/gcloud",
              readOnly := true } : VolumeMount)]
        else [])
    ++ (if gitconfigCm.isSome then
          [({ name := "gitconfig", mountPath := "/home/paude/.gitconfig",
              subPath := some ".gitconfig", readOnly := true } : VolumeMount)]
        else [])
    ++ (if claudeSecret.isSome then
          [({ name := "claude-config", mountPath := "/tmp/claude.seed",
              readOnly := true } : VolumeMount)]
        else [])
  { name := stsName
    namespaceName := ns
    labels := [("app", "paude"), ("paude.io/session-name", sessionName)]
    workspaceAnnotation := encodePathStr workspace
    createdAtAnnotation := now
    replicas := 0
    serviceName := stsName
    selectorMatchLabels := [("app", "paude"), ("paude.io/session-name", sessionName)]
    templateLabels := [("app", "paude"), ("paude.io/session-name", sessionName)]
    image := image
    command := ["/usr/local/bin/entrypoint-session.sh"]
    env := env ++ [("PAUDE_WORKSPACE", "/pvc/workspace")]
    workingDir := "/pvc/workspace"
    volumeMounts := volumeMounts
    volumeClaimTemplate :=
      { accessModes := ["ReadWriteOnce"], storageRequest := pvcSize,
        storageClassName := storageClass } }

/-- Embedding of `_get_statefulset` (lines 1367-1392). -/
def getStatefulset (st : ClusterState) (sessionName : String) : Option StsSpec :=
  st.statefulSets.find? (fun s => s.name = "paude-" ++ sessionName)

/-- Models `oc scale statefulset --replicas=r`. -/
def scaleStatefulset (st : ClusterState) (sessionName : String) (r : Nat) :
    ClusterState :=
  let rescale := fun (s : StsSpec) =>
    if s.name = "paude-" ++ sessionName then { s with replicas := r } else s
  { st with statefulSets := st.statefulSets.map rescale }

/-- The name of the PVC bound to a session's `/pvc` mount
(`workspace-paude-<name>-0`). -/
def sessionPvcName (sessionName : String) : String :=
  "workspace-paude-" ++ sessionName ++ "-0"

/-- The apply sequence of `create_session` (lines 1464-1518), run once the
uniqueness check has passed: credentials, the network policy chosen by
`network_restricted`, then the stopped StatefulSet. `now` stands for
`datetime.now(UTC).isoformat()`. -/
def createSessionApply (host : HostEnv) (now ns : String) (st : ClusterState)
    (cfg : SessionConfig) (sessionName : String) : ClusterState × Session :=
  let p1 := createCredentialsSecret host st sessionName
  let p2 := createGitconfigConfigmap host p1.1 sessionName
  let p3 := createClaudeSecret host p2.1 sessionName
  let policy :=
    if cfg.networkRestricted then ensureNetworkPolicySpec ns sessionName
    else ensureNetworkPolicyPermissiveSpec ns sessionName
  let st4 := { p3.1 with netPols := upsertBy NetworkPolicySpec.name policy p3.1.netPols }
  let claudeArgs :=
    (if cfg.yolo then ["--dangerously-skip-permissions"] else []) ++ cfg.args
  let sessionEnv :=
    if claudeArgs.isEmpty then cfg.env
    else dictSet cfg.env "PAUDE_CLAUDE_ARGS" (String.intercalate " " claudeArgs)
  let sts := generateStatefulsetSpec ns sessionName cfg.image sessionEnv
    cfg.workspace now p1.2 p2.2 p3.2 cfg.pvcSize cfg.storageClass
  let st5 := { st4 with statefulSets := upsertBy StsSpec.name sts st4.statefulSets }
  (st5,
   { name := sessionName, status := "stopped", workspace := cfg.workspace,
     createdAt := now, backendType := "openshift",
     containerId := some ("paude-" ++ sessionName ++ "-0"),
     volumeName := some (sessionPvcName sessionName) })

/-- Embedding of `create_session` (lines 1440-1518): checks for an existing StatefulSet
before applying anything. -/
def createSession (host : HostEnv) (now ns : String) (st : ClusterState)
    (cfg : SessionConfig) : ClusterState × Except BackendError Session :=
  let sessionName := cfg.name.getD (generateSessionName cfg.workspace)
  if (getStatefulset st sessionName).isSome then
    (st, .error .sessionExists)
  else
    let r := createSessionApply host now ns st cfg sessionName
    (r.1, .ok r.2)

/-- The delete sequence of `delete_session` (lines 1539-1586), run once the
checks have passed: scale to 0, delete the StatefulSet, the PVC, and every
Secret/ConfigMap/NetworkPolicy labeled `session-id=<name>` or
`paude.io/session-name=<name>`. -/
def deleteSessionApply (st : ClusterState) (name : String) : ClusterState :=
  let stsName := "paude-" ++ name
  let st1 := scaleStatefulset st name 0
  let st2 := { st1 with statefulSets := st1.statefulSets.filter (fun s => s.name ≠ stsName) }
  let st3 := { st2 with pvcs := st2.pvcs.filter (fun p => p ≠ sessionPvcName name) }
  let dropLab := fun (l : List LabeledObj) =>
    (l.filter (fun o => !o.labels.contains ("session-id", name))).filter
      (fun o => !o.labels.contains ("paude.io/session-name", name))
  { st3 with
    secrets := dropLab st3.secrets
    configMaps := dropLab st3.configMaps
    netPols := (st3.netPols.filter
        (fun o => !o.labels.contains ("session-id", name))).filter
      (fun o => !o.labels.contains ("paude.io/session-name", name)) }

/-- Embedding of `delete_session` (lines 1520-1588): requires `confirm`; errors when the
StatefulSet is absent; otherwise runs the delete sequence. -/
def deleteSession (st : ClusterState) (name : String) (confirm : Bool) :
    ClusterState × Except BackendError Unit :=
  if !confirm then (st, .error .confirmationRequired)
  else if (getStatefulset st name).isNone then (st, .error .sessionNotFound)
  else (deleteSessionApply st name, .ok ())

/-- The state transition of `start_session` (lines 1590-1631): error when
the StatefulSet is absent, else scale to 1. Scheduling the pod materializes
the PVC from the volumeClaimTemplate (Kubernetes StatefulSet semantics), so
the PVC name is added when not yet present. -/
def startSession (st : ClusterState) (name : String) :
    ClusterState × Except BackendError Unit :=
  if (getStatefulset st name).isNone then (st, .error .sessionNotFound)
  else
    let st1 := scaleStatefulset st name 1
    let pvc := sessionPvcName name
    let st2 := { st1 with pvcs := if st1.pvcs.contains pvc then st1.pvcs else st1.pvcs ++ [pvc] }
    (st2, .ok ())

/-- Embedding of `stop_session` (lines 1633-1659): error when the StatefulSet is absent,
else scale to 0; the PVC is left untouched. -/
def stopSession (st : ClusterState) (name : String) :
    ClusterState × Except BackendError Unit :=
  if (getStatefulset st name).isNone then (st, .error .sessionNotFound)
  else (scaleStatefulset st name 0, .ok ())

/-! ## `src/paude/backends/podman.py` and the CLI's podman path -/

/-- A container known to the local engine (what `podman ps`/`inspect` would
report). -/
structure PodmanContainer where
  name : String
  labels : List (String × String)
  running : Bool
deriving DecidableEq, Repr

/-- The local substrate's container store. -/
structure PodmanState where
  containers : List PodmanContainer := []
deriving DecidableEq, Repr

/-- Embedding of `PodmanBackend.list_sessions` (podman.py lines 123-131): Podman sessions
are ephemeral; the container store is never consulted and the empty list is
returned unconditionally. The state argument stands for the store the
function could have inspected. -/
def podmanListSessions (_st : PodmanState) : List Session := []

/-- Embedding of `PodmanBackend.attach_session` (podman.py lines 91-110): prints that
sessions cannot be reattached and returns exit code 1 unconditionally. -/
def podmanAttachSession (_sessionId : String) : Nat := 1

/-- The number of `app=paude`-labeled containers in the store (what the
claimed listing semantics would count). -/
def paudeLabeledCount (st : PodmanState) : Nat :=
  (st.containers.filter (fun c => c.labels.contains ("app", "paude"))).length

/-- Outcome of the proxy-setup phase of `_run_podman_backend`
(cli.py lines 1798-1815): when the user did not pass `--allow-network` the
internal network is ensured, the proxy container is started and the proxy
environment variables are added; otherwise none of that happens. -/
structure PodmanProxyPhase where
  proxyStarted : Bool
  networkName : Option String
  proxyEnvAdded : Bool
deriving DecidableEq, Repr

def runPodmanBackendProxyPhase (allowNetwork : Bool) : PodmanProxyPhase :=
  if !allowNetwork then
    { proxyStarted := true, networkName := some "paude-internal",
      proxyEnvAdded := true }
  else
    { proxyStarted := false, networkName := none, proxyEnvAdded := false }

/-! ## Workspace sync (openshift.py lines 1757-1848 and 2265-2414)

Each rsync invocation is recorded as the argument vector handed to the `oc`
client, together with whether a non-zero exit raises (`check=` for
`_run_oc`; the helper subprocess calls never raise, they print a warning).
-/

/-- One recorded `oc rsync` invocation. -/
structure RsyncCall where
  args : List String
  raisesOnFailure : Bool
deriving DecidableEq, Repr

/-- Builds the `--exclude P` argument pairs, in order. -/
def excludeArgsOf (excludes : List String) : List String :=
  excludes.flatMap (fun p => ["--exclude", p])

/-- The `excludes` list of `sync_session` (lines 1808-1817). -/
def syncSessionExcludes : List String :=
  [".venv", "venv", ".virtualenv", "env", ".env", "__pycache__", "*.pyc",
   "node_modules"]

/-- The local-to-pod rsync of `sync_session` (lines 1824-1835), run through
`_run_oc` with `check=False`. -/
def syncSessionPushCall (workspace podName remotePath ns : String) : RsyncCall :=
  { args := ["rsync", workspace ++ "/", podName ++ ":" ++ remotePath,
      "-n", ns, "--no-perms"] ++ excludeArgsOf syncSessionExcludes,
    raisesOnFailure := false }

/-- The pod-to-local rsync of `sync_session` (lines 1837-1848). -/
def syncSessionPullCall (workspace podName remotePath ns : String) : RsyncCall :=
  { args := ["rsync", podName ++ ":" ++ remotePath ++ "/", workspace,
      "-n", ns, "--no-perms"] ++ excludeArgsOf syncSessionExcludes,
    raisesOnFailure := false }

/-- The rsync invocations `sync_session` issues for a direction, in
execution order: the push when direction is `remote` or `both`, then the
pull when direction is `local` or `both`. -/
def syncSessionCalls (direction workspace podName remotePath ns : String) :
    List RsyncCall :=
  (if direction = "remote" ∨ direction = "both" then
    [syncSessionPushCall workspace podName remotePath ns]
  else []) ++
  (if direction = "local" ∨ direction = "both" then
    [syncSessionPullCall workspace podName remotePath ns]
  else [])

/-- The `default_excludes` list of the legacy `sync_workspace`
(lines 2311-2321); note the extra `.paude-initialized` entry. -/
def syncWorkspaceDefaultExcludes : List String :=
  [".venv", "venv", ".virtualenv", "env", ".env", "__pycache__", "*.pyc",
   "node_modules", ".paude-initialized"]

/-- Embedding of `_rsync_to_pod` (lines 2345-2378): full command vector; the subprocess
result is only checked to print a warning, so the call never raises. -/
def rsyncToPodCall (ctx : Option String) (localPath podName remotePath ns : String)
    (excludeArgs : List String) : RsyncCall :=
  { args := ["oc", "rsync", "--progress"]
      ++ (match ctx with | some c => ["--context", c] | none => [])
      ++ ["-n", ns] ++ excludeArgs ++ [localPath ++ "/", podName ++ ":" ++ remotePath],
    raisesOnFailure := false }

/-- Embedding of `_rsync_from_pod` (lines 2380-2414). -/
def rsyncFromPodCall (ctx : Option String) (localPath podName remotePath ns : String)
    (excludeArgs : List String) : RsyncCall :=
  { args := ["oc", "rsync", "--progress"]
      ++ (match ctx with | some c => ["--context", c] | none => [])
      ++ ["-n", ns] ++ excludeArgs ++ [podName ++ ":" ++ remotePath ++ "/", localPath],
    raisesOnFailure := false }

/-- The rsync invocations of the legacy `sync_workspace` (lines 2329-2341),
in execution order: push first on `remote`/`both`, then pull on
`local`/`both`, with caller excludes prepended to the defaults. -/
def syncWorkspaceCalls (direction : String) (ctx : Option String)
    (localPath podName remotePath ns : String) (exclude : List String) :
    List RsyncCall :=
  let ea := excludeArgsOf (exclude ++ syncWorkspaceDefaultExcludes)
  (if direction = "remote" ∨ direction = "both" then
    [rsyncToPodCall ctx localPath podName remotePath ns ea]
  else []) ++
  (if direction = "local" ∨ direction = "both" then
    [rsyncFromPodCall ctx localPath podName remotePath ns ea]
  else [])

/-! ## Helper lemmas -/

theorem mem_upsertBy {α : Type} (key : α → String) (x : α) (l : List α) :
    x ∈ upsertBy key x l := by
  unfold upsertBy
  split
  · rename_i hany
    obtain ⟨y, hy, hkey⟩ := List.any_eq_true.mp hany
    exact List.mem_map.mpr ⟨y, hy, by simp [of_decide_eq_true hkey]⟩
  · simp

theorem createCredentialsSecret_preserves (host : HostEnv) (st : ClusterState)
    (sid : String) :
    (createCredentialsSecret host st sid).1.statefulSets = st.statefulSets
    ∧ (createCredentialsSecret host st sid).1.netPols = st.netPols
    ∧ (createCredentialsSecret host st sid).1.deployments = st.deployments
    ∧ (createCredentialsSecret host st sid).1.services = st.services
    ∧ (createCredentialsSecret host st sid).1.pvcs = st.pvcs := by
  unfold createCredentialsSecret
  split <;> simp

theorem createGitconfigConfigmap_preserves (host : HostEnv) (st : ClusterState)
    (sid : String) :
    (createGitconfigConfigmap host st sid).1.statefulSets = st.statefulSets
    ∧ (createGitconfigConfigmap host st sid).1.netPols = st.netPols
    ∧ (createGitconfigConfigmap host st sid).1.deployments = st.deployments
    ∧ (createGitconfigConfigmap host st sid).1.services = st.services
    ∧ (createGitconfigConfigmap host st sid).1.pvcs = st.pvcs := by
  unfold createGitconfigConfigmap
  split <;> simp

theorem createClaudeSecret_preserves (host : HostEnv) (st : ClusterState)
    (sid : String) :
    (createClaudeSecret host st sid).1.statefulSets = st.statefulSets
    ∧ (createClaudeSecret host st sid).1.netPols = st.netPols
    ∧ (createClaudeSecret host st sid).1.deployments = st.deployments
    ∧ (createClaudeSecret host st sid).1.services = st.services
    ∧ (createClaudeSecret host st sid).1.pvcs = st.pvcs := by
  unfold createClaudeSecret
  split <;> simp

/-- When the uniqueness check fires, `create_session` returns with the state
untouched. -/
theorem createSession_exists_branch (host : HostEnv) (now ns : String)
    (st : ClusterState) (cfg : SessionConfig)
    (h : (getStatefulset st (cfg.name.getD (generateSessionName cfg.workspace))).isSome
      = true) :
    createSession host now ns st cfg = (st, .error .sessionExists) := by
  simp only [createSession]
  rw [if_pos h]

/-- On a fresh name, `create_session` runs the apply sequence and succeeds. -/
theorem createSession_fresh_eq (host : HostEnv) (now ns : String)
    (st : ClusterState) (cfg : SessionConfig)
    (h : (getStatefulset st (cfg.name.getD (generateSessionName cfg.workspace))).isSome
      = false) :
    createSession host now ns st cfg =
      ((createSessionApply host now ns st cfg
          (cfg.name.getD (generateSessionName cfg.workspace))).1,
       .ok (createSessionApply host now ns st cfg
          (cfg.name.getD (generateSessionName cfg.workspace))).2) := by
  simp only [createSession]
  rw [if_neg (by simp [h])]

/-- The apply sequence registers a StatefulSet under `paude-<name>`. -/
theorem createSessionApply_hasStatefulset (host : HostEnv) (now ns : String)
    (st : ClusterState) (cfg : SessionConfig) (n : String) :
    (getStatefulset (createSessionApply host now ns st cfg n).1 n).isSome = true := by
  unfold createSessionApply getStatefulset
  dsimp only
  rw [List.find?_isSome]
  exact ⟨_, mem_upsertBy _ _ _, by simp [generateStatefulsetSpec]⟩

/-- The apply sequence applies exactly the policy selected by
`network_restricted` and touches no Deployment/Service. -/
theorem createSessionApply_netPols (host : HostEnv) (now ns : String)
    (st : ClusterState) (cfg : SessionConfig) (n : String) :
    (createSessionApply host now ns st cfg n).1.netPols =
      upsertBy NetworkPolicySpec.name
        (if cfg.networkRestricted then ensureNetworkPolicySpec ns n
         else ensureNetworkPolicyPermissiveSpec ns n)
        st.netPols := by
  unfold createSessionApply
  dsimp only
  rw [(createClaudeSecret_preserves host
        (createGitconfigConfigmap host
          (createCredentialsSecret host st n).1 n).1 n).2.1,
      (createGitconfigConfigmap_preserves host
        (createCredentialsSecret host st n).1 n).2.1,
      (createCredentialsSecret_preserves host st n).2.1]

theorem createSessionApply_deployments (host : HostEnv) (now ns : String)
    (st : ClusterState) (cfg : SessionConfig) (n : String) :
    (createSessionApply host now ns st cfg n).1.deployments = st.deployments := by
  unfold createSessionApply
  dsimp only
  rw [(createClaudeSecret_preserves host
        (createGitconfigConfigmap host
          (createCredentialsSecret host st n).1 n).1 n).2.2.1,
      (createGitconfigConfigmap_preserves host
        (createCredentialsSecret host st n).1 n).2.2.1,
      (createCredentialsSecret_preserves host st n).2.2.1]

theorem createSessionApply_services (host : HostEnv) (now ns : String)
    (st : ClusterState) (cfg : SessionConfig) (n : String) :
    (createSessionApply host now ns st cfg n).1.services = st.services := by
  unfold createSessionApply
  dsimp only
  rw [(createClaudeSecret_preserves host
        (createGitconfigConfigmap host
          (createCredentialsSecret host st n).1 n).1 n).2.2.2.1,
      (createGitconfigConfigmap_preserves host
        (createCredentialsSecret host st n).1 n).2.2.2.1,
      (createCredentialsSecret_preserves host st n).2.2.2.1]

/-! ## Claim theorems (session lifecycle) -/

/-- C2: with `allow_network = true` (`network_restricted = false`) the
podman path starts no proxy container, the OpenShift `create_session`
touches no Deployment or Service, and the NetworkPolicy it applies is the
permissive one whose egress is exactly one empty (allow-all) rule. -/
theorem allow_network_no_proxy_and_allow_all_policy (host : HostEnv)
    (now ns : String) (st : ClusterState) (cfg : SessionConfig)
    (hnr : cfg.networkRestricted = false)
    (hok : ((createSession host now ns st cfg).2).isOk = true) :
    (runPodmanBackendProxyPhase true).proxyStarted = false
    ∧ (createSession host now ns st cfg).1.deployments = st.deployments
    ∧ (createSession host now ns st cfg).1.services = st.services
    ∧ ∃ np ∈ (createSession host now ns st cfg).1.netPols,
        np = ensureNetworkPolicyPermissiveSpec ns
          (cfg.name.getD (generateSessionName cfg.workspace))
        ∧ np.egress = [{}] := by
  by_cases h : (getStatefulset st (cfg.name.getD (generateSessionName cfg.workspace))).isSome
    = true
  · exfalso
    rw [createSession_exists_branch host now ns st cfg h] at hok
    exact absurd hok (by simp [Except.isOk, Except.toBool])
  · rw [createSession_fresh_eq host now ns st cfg (by simpa using h)]
    dsimp only
    refine ⟨rfl, createSessionApply_deployments host now ns st cfg _,
      createSessionApply_services host now ns st cfg _, ?_⟩
    refine ⟨ensureNetworkPolicyPermissiveSpec ns
      (cfg.name.getD (generateSessionName cfg.workspace)), ?_, rfl, rfl⟩
    rw [createSessionApply_netPols host now ns st cfg _, hnr]
    simp only [Bool.false_eq_true, if_false]
    exact mem_upsertBy _ _ _

/-- Concrete instantiation of the C2 theorem: creating a session named
`web` with `network_restricted = false` on an empty namespace. -/
theorem allow_network_no_proxy_and_allow_all_policy_witness :
    (({ name := some "web", workspace := "/w", image := "img",
        networkRestricted := false } : SessionConfig).networkRestricted = false)
    ∧ ((createSession {} "t0" "ns" {}
        { name := some "web", workspace := "/w", image := "img",
          networkRestricted := false }).2).isOk = true
    ∧ ((runPodmanBackendProxyPhase true).proxyStarted = false
      ∧ (createSession {} "t0" "ns" {}
          { name := some "web", workspace := "/w", image := "img",
            networkRestricted := false }).1.deployments
          = ({} : ClusterState).deployments
      ∧ (createSession {} "t0" "ns" {}
          { name := some "web", workspace := "/w", image := "img",
            networkRestricted := false }).1.services
          = ({} : ClusterState).services
      ∧ ∃ np ∈ (createSession {} "t0" "ns" {}
          { name := some "web", workspace := "/w", image := "img",
            networkRestricted := false }).1.netPols,
          np = ensureNetworkPolicyPermissiveSpec "ns"
            (({ name := some "web", workspace := "/w", image := "img",
                networkRestricted := false } : SessionConfig).name.getD
              (generateSessionName "/w"))
          ∧ np.egress = [{}]) :=
  ⟨rfl, rfl,
   allow_network_no_proxy_and_allow_all_policy {} "t0" "ns" {}
     { name := some "web", workspace := "/w", image := "img",
       networkRestricted := false } rfl rfl⟩

/-- C4: after a successful `create_session` for name `n`, any further
`create_session` naming `n` (whatever its other settings, credential
environment or timestamp) fails with `SessionExistsError` and leaves the
cluster state exactly as it was: the uniqueness check precedes every
`oc apply`. -/
theorem create_session_name_uniqueness (host host' : HostEnv)
    (now now' ns : String) (st : ClusterState) (cfg cfg' : SessionConfig)
    (n : String) (hn : cfg.name = some n) (hn' : cfg'.name = some n)
    (hok : ((createSession host now ns st cfg).2).isOk = true) :
    createSession host' now' ns (createSession host now ns st cfg).1 cfg' =
      ((createSession host now ns st cfg).1, .error .sessionExists) := by
  by_cases h : (getStatefulset st (cfg.name.getD (generateSessionName cfg.workspace))).isSome
    = true
  · exfalso
    rw [createSession_exists_branch host now ns st cfg h] at hok
    exact absurd hok (by simp [Except.isOk, Except.toBool])
  · have hgetd : cfg.name.getD (generateSessionName cfg.workspace) = n := by
      rw [hn]; rfl
    rw [createSession_fresh_eq host now ns st cfg (by simpa using h)]
    dsimp only
    apply createSession_exists_branch
    rw [hn']
    simp only [Option.getD_some]
    rw [hgetd]
    exact createSessionApply_hasStatefulset host now ns st cfg n

def demoCfg : SessionConfig :=
  { name := some "demo", workspace := "/home/user/proj", image := "img" }

def demoHost : HostEnv := {}

/-- The cluster state after creating the demo session on an empty namespace. -/
def demoSt1 : ClusterState := (createSession demoHost "t0" "ns" {} demoCfg).1

/-- The cluster state after additionally starting the demo session (this
materializes its PVC). -/
def demoStStarted : ClusterState := (startSession demoSt1 "demo").1

/-- Concrete instantiation of C4: create `demo` twice on an empty
namespace; the second call fails with `SessionExistsError` and returns the
state unchanged. -/
theorem create_session_name_uniqueness_witness :
    demoCfg.name = some "demo"
    ∧ ((createSession demoHost "t0" "ns" {} demoCfg).2).isOk = true
    ∧ createSession demoHost "t1" "ns"
        (createSession demoHost "t0" "ns" {} demoCfg).1 demoCfg =
      ((createSession demoHost "t0" "ns" {} demoCfg).1, .error .sessionExists) :=
  ⟨rfl, rfl,
   create_session_name_uniqueness demoHost demoHost "t0" "t1" "ns" {} demoCfg
     demoCfg "demo" rfl rfl rfl⟩

/-- An unconfirmed delete fails before looking at anything. -/
theorem deleteSession_unconfirmed (st : ClusterState) (n : String) :
    deleteSession st n false = (st, .error .confirmationRequired) := by
  simp [deleteSession]

/-- A confirmed delete of an absent session fails with the state
untouched. -/
theorem deleteSession_not_found (st : ClusterState) (n : String)
    (h : (getStatefulset st n).isNone = true) :
    deleteSession st n true = (st, .error .sessionNotFound) := by
  simp only [deleteSession]
  rw [if_neg (by decide), if_pos h]

/-- A confirmed delete of an existing session runs the delete sequence. -/
theorem deleteSession_found (st : ClusterState) (n : String)
    (h : (getStatefulset st n).isNone = false) :
    deleteSession st n true = (deleteSessionApply st n, .ok ()) := by
  simp only [deleteSession]
  rw [if_neg (by decide), if_neg (by rw [h]; decide)]

/-- The delete sequence removes the session's StatefulSet. -/
theorem deleteSessionApply_no_statefulset (st : ClusterState) (n : String) :
    (getStatefulset (deleteSessionApply st n) n).isNone = true := by
  unfold deleteSessionApply getStatefulset
  dsimp only
  rw [Option.isNone_iff_eq_none, List.find?_eq_none]
  intro x hx
  have hq := (List.mem_filter.mp hx).2
  simp only [decide_eq_true_eq] at hq
  simp [hq]

/-- The delete sequence removes the session's PVC. -/
theorem deleteSessionApply_pvc (st : ClusterState) (n : String) :
    sessionPvcName n ∉ (deleteSessionApply st n).pvcs := by
  unfold deleteSessionApply
  dsimp only
  intro hmem
  have := (List.mem_filter.mp hmem).2
  simp at this

/-- The delete sequence leaves no Secret labeled with the session. -/
theorem deleteSessionApply_secrets (st : ClusterState) (n : String) :
    ∀ o ∈ (deleteSessionApply st n).secrets,
      o.labels.contains ("session-id", n) = false
      ∧ o.labels.contains ("paude.io/session-name", n) = false := by
  unfold deleteSessionApply
  dsimp only
  intro o ho
  have h2 := (List.mem_filter.mp ho).2
  have h3 := (List.mem_filter.mp (List.mem_filter.mp ho).1).2
  simp only [Bool.not_eq_true'] at h2 h3
  exact ⟨h3, h2⟩

/-- The delete sequence leaves no ConfigMap labeled with the session. -/
theorem deleteSessionApply_configMaps (st : ClusterState) (n : String) :
    ∀ o ∈ (deleteSessionApply st n).configMaps,
      o.labels.contains ("session-id", n) = false
      ∧ o.labels.contains ("paude.io/session-name", n) = false := by
  unfold deleteSessionApply
  dsimp only
  intro o ho
  have h2 := (List.mem_filter.mp ho).2
  have h3 := (List.mem_filter.mp (List.mem_filter.mp ho).1).2
  simp only [Bool.not_eq_true'] at h2 h3
  exact ⟨h3, h2⟩

/-- The delete sequence leaves no NetworkPolicy labeled with the session. -/
theorem deleteSessionApply_netPols (st : ClusterState) (n : String) :
    ∀ o ∈ (deleteSessionApply st n).netPols,
      o.labels.contains ("session-id", n) = false
      ∧ o.labels.contains ("paude.io/session-name", n) = false := by
  unfold deleteSessionApply
  dsimp only
  intro o ho
  have h2 := (List.mem_filter.mp ho).2
  have h3 := (List.mem_filter.mp (List.mem_filter.mp ho).1).2
  simp only [Bool.not_eq_true'] at h2 h3
  exact ⟨h3, h2⟩

/-- After a successful delete, the session's PVC is gone. -/
theorem deleteSession_pvc_removed (st : ClusterState) (n : String)
    (h1 : ((deleteSession st n true).2) = .ok ()) :
    sessionPvcName n ∉ (deleteSession st n true).1.pvcs := by
  by_cases h : (getStatefulset st n).isNone = true
  · rw [deleteSession_not_found st n h] at h1
    exact absurd h1 (by simp)
  · rw [deleteSession_found st n (Bool.eq_false_iff.mpr h)]
    exact deleteSessionApply_pvc st n

/-- C5: an unconfirmed delete fails with the state untouched; a confirmed
delete of an existing session removes its StatefulSet, PVC, and every
Secret/ConfigMap/NetworkPolicy labeled with the session; an immediately
repeated confirmed delete fails with `SessionNotFoundError` and changes
nothing. -/
theorem delete_session_idempotent_no_orphans (st : ClusterState) (n : String)
    (h1 : ((deleteSession st n true).2) = .ok ()) :
    deleteSession (deleteSession st n true).1 n true
      = ((deleteSession st n true).1, .error .sessionNotFound)
    ∧ sessionPvcName n ∉ (deleteSession st n true).1.pvcs
    ∧ (∀ o ∈ (deleteSession st n true).1.secrets,
        o.labels.contains ("session-id", n) = false
        ∧ o.labels.contains ("paude.io/session-name", n) = false)
    ∧ (∀ o ∈ (deleteSession st n true).1.configMaps,
        o.labels.contains ("session-id", n) = false
        ∧ o.labels.contains ("paude.io/session-name", n) = false)
    ∧ (∀ o ∈ (deleteSession st n true).1.netPols,
        o.labels.contains ("session-id", n) = false
        ∧ o.labels.contains ("paude.io/session-name", n) = false)
    ∧ (∀ (st' : ClusterState) (m : String),
        deleteSession st' m false = (st', .error .confirmationRequired)) := by
  by_cases h : (getStatefulset st n).isNone = true
  · rw [deleteSession_not_found st n h] at h1
    exact absurd h1 (by simp)
  · rw [deleteSession_found st n (Bool.eq_false_iff.mpr h)]
    dsimp only
    exact ⟨deleteSession_not_found _ n (deleteSessionApply_no_statefulset st n),
      deleteSessionApply_pvc st n, deleteSessionApply_secrets st n,
      deleteSessionApply_configMaps st n, deleteSessionApply_netPols st n,
      fun st' m => deleteSession_unconfirmed st' m⟩

/-- Concrete instantiation of C5 on the freshly created demo session. -/
theorem delete_session_idempotent_no_orphans_witness :
    ((deleteSession demoSt1 "demo" true).2) = .ok ()
    ∧ (deleteSession (deleteSession demoSt1 "demo" true).1 "demo" true
        = ((deleteSession demoSt1 "demo" true).1, .error .sessionNotFound)
      ∧ sessionPvcName "demo" ∉ (deleteSession demoSt1 "demo" true).1.pvcs
      ∧ (∀ o ∈ (deleteSession demoSt1 "demo" true).1.secrets,
          o.labels.contains ("session-id", "demo") = false
          ∧ o.labels.contains ("paude.io/session-name", "demo") = false)
      ∧ (∀ o ∈ (deleteSession demoSt1 "demo" true).1.configMaps,
          o.labels.contains ("session-id", "demo") = false
          ∧ o.labels.contains ("paude.io/session-name", "demo") = false)
      ∧ (∀ o ∈ (deleteSession demoSt1 "demo" true).1.netPols,
          o.labels.contains ("session-id", "demo") = false
          ∧ o.labels.contains ("paude.io/session-name", "demo") = false)
      ∧ (∀ (st' : ClusterState) (m : String),
          deleteSession st' m false = (st', .error .confirmationRequired))) :=
  ⟨rfl, delete_session_idempotent_no_orphans demoSt1 "demo" rfl⟩

/-- Operation `stop_session` never touches the PVC list, whatever the outcome. -/
theorem stopSession_preserves_pvcs (st : ClusterState) (n : String) :
    (stopSession st n).1.pvcs = st.pvcs := by
  unfold stopSession
  split <;> rfl

/-- C6: stopping a session only rescales the workload and leaves the PVC
list untouched, so an existing session volume is still there; a confirmed
delete removes the session's PVC. -/
theorem stop_preserves_volume_delete_removes (st : ClusterState) (n : String)
    (hvol : sessionPvcName n ∈ st.pvcs)
    (hdel : ((deleteSession st n true).2) = .ok ()) :
    (stopSession st n).1.pvcs = st.pvcs
    ∧ sessionPvcName n ∈ (stopSession st n).1.pvcs
    ∧ sessionPvcName n ∉ (deleteSession st n true).1.pvcs :=
  ⟨stopSession_preserves_pvcs st n,
   (stopSession_preserves_pvcs st n).symm ▸ hvol,
   deleteSession_pvc_removed st n hdel⟩

/-- Concrete instantiation of C6 on the created-then-started demo session,
whose PVC has been materialized by the start. -/
theorem stop_preserves_volume_delete_removes_witness :
    sessionPvcName "demo" ∈ demoStStarted.pvcs
    ∧ ((deleteSession demoStStarted "demo" true).2) = .ok ()
    ∧ ((stopSession demoStStarted "demo").1.pvcs = demoStStarted.pvcs
      ∧ sessionPvcName "demo" ∈ (stopSession demoStStarted "demo").1.pvcs
      ∧ sessionPvcName "demo" ∉ (deleteSession demoStStarted "demo" true).1.pvcs) :=
  ⟨by decide, rfl,
   stop_preserves_volume_delete_removes demoStStarted "demo" (by decide) rfl⟩

/-! ## Claim theorems (policy shape, podman, hash, annotation, sync, mounts) -/

/-- C1: the claim says the restricted NetworkPolicy permits egress only to
DNS and to the proxy on TCP 3128 via pod selectors, with the DNS rule
carrying both empty selectors in one destination object. The policy applied
by `_ensure_network_policy` instead emits a DNS rule without any `to` object
and a TCP 443 rule whose destinations are IP CIDR blocks; no rule mentions
port 3128 and no destination carries a pod selector. (The repository's own
tests assert the claimed shape, so the code diverges from its tests.) -/
theorem restricted_policy_uses_cidrs_not_proxy_selectors (ns sid : String) :
    (∃ r ∈ (ensureNetworkPolicySpec ns sid).egress,
      ∃ ds, r.toDests = some ds ∧ ∃ d ∈ ds, d.ipBlockCidr.isSome)
    ∧ (∀ r ∈ (ensureNetworkPolicySpec ns sid).egress,
        ∀ p ∈ r.ports, p.port ≠ 3128)
    ∧ (∀ r ∈ (ensureNetworkPolicySpec ns sid).egress,
        ∀ ds, r.toDests = some ds →
          ∀ d ∈ ds, d.podSelectorMatchLabels = none
            ∧ d.namespaceSelectorMatchLabels = none)
    ∧ (ensureNetworkPolicySpec ns sid).egress.head?
        = some { ports := [⟨"UDP", 53⟩, ⟨"TCP", 53⟩] } := by
  simp only [ensureNetworkPolicySpec, allowedCidrs]
  refine ⟨?_, ?_, ?_, ?_⟩ <;> decide

/-- A local container store holding one stopped `app=paude`-labeled
container, as left behind by a previous run. -/
def podmanDemoState : PodmanState :=
  { containers := [{ name := "paude-foo", labels := [("app", "paude")],
                     running := false }] }

/-- C3 (counterexample): on the local substrate, `list_sessions` does not
return one session per `app=paude`-labeled container: with one labeled
container in the store it still returns the empty list. -/
theorem podman_list_sessions_misses_labeled_container :
    paudeLabeledCount podmanDemoState = 1
    ∧ podmanListSessions podmanDemoState = []
    ∧ (podmanListSessions podmanDemoState).length ≠ paudeLabeledCount podmanDemoState :=
  ⟨rfl, rfl, by decide⟩

/-- C3 (amended): on the local (Podman) substrate sessions are ephemeral:
`list_sessions` returns the empty list without consulting the container
store, and `attach_session` always returns exit code 1. -/
theorem podman_sessions_ephemeral (st : PodmanState) (sid : String) :
    podmanListSessions st = [] ∧ podmanAttachSession sid = 1 :=
  ⟨rfl, rfl⟩

/-- C7: the hash the claim describes cannot be produced by the code: the
call in `ImageManager.ensure_custom_image` passes `workspace=` and
`pip_install=` keyword arguments that `compute_config_hash` does not accept
(and leaves its required `version` parameter unbound), so the call raises
`TypeError`; `compute_config_hash` itself has no workspace-tree input at
all. The final conjunct checks the 12-hex-character truncation the function
does perform. -/
theorem ensure_custom_image_hash_call_incompatible :
    bindPythonCall computeConfigHashParams 4 ensureCustomImageHashKwargs
      = .unexpectedKeyword "workspace"
    ∧ "workspace" ∉ computeConfigHashParams
    ∧ "pip_install" ∉ computeConfigHashParams
    ∧ bindPythonCall computeConfigHashParams 4 [] = .missingArgument "version"
    ∧ (computeConfigHash none none none none "0.1.0").length = 12 := by
  refine ⟨by decide, by decide, by decide, by decide, ?_⟩
  rfl

/-- C8: decoding the base64 workspace annotation produced by encoding a
path returns exactly that path: `_decode_path ∘ _encode_path` is the
identity on (the UTF-8 bytes of) every path. -/
theorem decode_encode_path_roundtrip (w : List Nat) (h : ∀ b ∈ w, b < 256) :
    decodePath (encodePath w) = some w :=
  b64encode_decode w h

/-- Concrete instantiation of C8 on the path `/home/user/project`. -/
theorem decode_encode_path_roundtrip_witness :
    (∀ b ∈ utf8Bytes "/home/user/project", b < 256)
    ∧ decodePath (encodePath (utf8Bytes "/home/user/project"))
        = some (utf8Bytes "/home/user/project") :=
  ⟨by decide,
   decode_encode_path_roundtrip (utf8Bytes "/home/user/project") (by decide)⟩

/-- C9 (counterexample): the legacy `sync_workspace` path issues rsync
invocations that do not pass `--no-perms` and that exclude
`.paude-initialized` on top of the claimed list. -/
theorem sync_workspace_rsync_deviates :
    ∃ call ∈ syncWorkspaceCalls "both" none "/w" "paude-session-abc"
        "/workspace" "ns" [],
      "--no-perms" ∉ call.args ∧ ".paude-initialized" ∈ call.args := by
  decide

/-- C9 (amended): for the persistent-session `sync_session`, direction
`both` runs the push before the pull, every rsync invocation passes
`--no-perms`, uses exactly the eight default excludes (never `.git`), and
never raises on rsync failure; the legacy `sync_workspace` also never
raises on failure, but passes `--progress` without `--no-perms` and adds a
ninth exclude `.paude-initialized`. -/
theorem sync_session_order_excludes_warn_only (d ws pod rp ns : String) :
    syncSessionCalls "both" ws pod rp ns
      = [syncSessionPushCall ws pod rp ns, syncSessionPullCall ws pod rp ns]
    ∧ syncSessionExcludes
      = [".venv", "venv", ".virtualenv", "env", ".env", "__pycache__",
         "*.pyc", "node_modules"]
    ∧ ".git" ∉ syncSessionExcludes
    ∧ (∀ c ∈ syncSessionCalls d ws pod rp ns,
        "--no-perms" ∈ c.args ∧ c.raisesOnFailure = false)
    ∧ (∀ c ∈ syncWorkspaceCalls d none ws pod rp ns [],
        c.raisesOnFailure = false ∧ "--progress" ∈ c.args)
    ∧ syncWorkspaceDefaultExcludes
      = syncSessionExcludes ++ [".paude-initialized"] := by
  refine ⟨by simp [syncSessionCalls], rfl, by decide, ?_, ?_, rfl⟩
  · intro c hc
    simp only [syncSessionCalls, List.mem_append] at hc
    rcases hc with hc | hc <;> split at hc <;>
      simp only [List.mem_singleton, List.not_mem_nil] at hc <;> try exact absurd hc not_false
    all_goals subst hc
    all_goals constructor
    · simp [syncSessionPushCall, excludeArgsOf]
    · rfl
    · simp [syncSessionPullCall, excludeArgsOf]
    · rfl
  · intro c hc
    simp only [syncWorkspaceCalls, List.mem_append] at hc
    rcases hc with hc | hc <;> split at hc <;>
      simp only [List.mem_singleton, List.not_mem_nil] at hc <;> try exact absurd hc not_false
    all_goals subst hc
    all_goals constructor
    · rfl
    · simp [rsyncToPodCall]
    · rfl
    · simp [rsyncFromPodCall]

/-! C10 helper lemmas -/

theorem strAppendAssoc (a b c : String) : a ++ b ++ c = a ++ (b ++ c) := by
  cases a with | mk da =>
  cases b with | mk db =>
  cases c with | mk dc =>
  show String.mk (da ++ db ++ dc) = String.mk (da ++ (db ++ dc))
  rw [List.append_assoc]

/-- The fixed set of optional mounts named by the claim (gcloud config,
Claude seed directory, plugins, gitconfig, claude.json seed), stated from
the claim's words for comparison with `build_mounts`. -/
def mountCandidates (fs : HostFS) (home : String) : List String :=
  (match fs.resolves (home ++ "/.config/gcloud") with
   | some rg => [rg ++ ":/home/paude/.config/gcloud:ro"]
   | none => []) ++
  (match fs.resolves (home ++ "/.claude") with
   | some rc => [rc ++ ":/tmp/claude.seed:ro",
                 rc ++ "/plugins:" ++ rc ++ "/plugins:ro"]
   | none => []) ++
  (match fs.resolves (home ++ "/.gitconfig") with
   | some rg => [rg ++ ":/home/paude/.gitconfig:ro"]
   | none => []) ++
  (match fs.resolves (home ++ "/.claude.json") with
   | some rj => [rj ++ ":/tmp/claude.json.seed:ro"]
   | none => [])

/-- A podman `-v` argument marked read-only. -/
def IsReadOnlyMountArg (s : String) : Prop := ∃ pre, s = pre ++ ":ro"

theorem gcloudMountOf_shape (fs : HostFS) (home : String) :
    ∀ s ∈ gcloudMountOf fs home,
      s = "-v" ∨ (IsReadOnlyMountArg s ∧ s ∈ mountCandidates fs home) := by
  intro s hs
  unfold gcloudMountOf at hs
  cases hg : fs.resolves (home ++ "/.config/gcloud") with
  | none => rw [hg] at hs; simp at hs
  | some rg =>
    rw [hg] at hs
    dsimp only at hs
    by_cases hd : fs.isDir rg = true
    · rw [if_pos hd] at hs
      simp only [List.mem_cons, List.mem_singleton, List.not_mem_nil, or_false] at hs
      rcases hs with rfl | rfl
      · exact Or.inl rfl
      · refine Or.inr ⟨⟨rg ++ ":/home/paude/.config/gcloud", ?_⟩, ?_⟩
        · rw [strAppendAssoc]; rfl
        · simp [mountCandidates, hg]
    · rw [if_neg hd] at hs
      simp at hs

theorem claudeMountsOf_shape (fs : HostFS) (home : String) :
    ∀ s ∈ claudeMountsOf fs home,
      s = "-v" ∨ (IsReadOnlyMountArg s ∧ s ∈ mountCandidates fs home) := by
  intro s hs
  unfold claudeMountsOf at hs
  cases hg : fs.resolves (home ++ "/.claude") with
  | none => rw [hg] at hs; simp at hs
  | some rc =>
    rw [hg] at hs
    dsimp only at hs
    by_cases hd : fs.isDir rc = true
    · rw [if_pos hd] at hs
      by_cases hp : fs.isDir (rc ++ "/plugins") = true
      · rw [if_pos hp] at hs
        simp only [List.mem_append, List.mem_cons, List.mem_singleton,
          List.not_mem_nil, or_false] at hs
        rcases hs with (rfl | rfl) | (rfl | rfl)
        · exact Or.inl rfl
        · refine Or.inr ⟨⟨rc ++ ":/tmp/claude.seed", ?_⟩, ?_⟩
          · rw [strAppendAssoc]; rfl
          · simp [mountCandidates, hg]
        · exact Or.inl rfl
        · refine Or.inr ⟨⟨rc ++ "/plugins:" ++ rc ++ "/plugins", ?_⟩, ?_⟩
          · rw [strAppendAssoc (rc ++ "/plugins:" ++ rc) "/plugins" ":ro"]; rfl
          · simp [mountCandidates, hg]
      · rw [if_neg hp] at hs
        simp only [List.append_nil, List.mem_cons, List.mem_singleton,
          List.not_mem_nil, or_false] at hs
        rcases hs with rfl | rfl
        · exact Or.inl rfl
        · refine Or.inr ⟨⟨rc ++ ":/tmp/claude.seed", ?_⟩, ?_⟩
          · rw [strAppendAssoc]; rfl
          · simp [mountCandidates, hg]
    · rw [if_neg hd] at hs
      simp at hs

theorem gitconfigMountOf_shape (fs : HostFS) (home : String) :
    ∀ s ∈ gitconfigMountOf fs home,
      s = "-v" ∨ (IsReadOnlyMountArg s ∧ s ∈ mountCandidates fs home) := by
  intro s hs
  unfold gitconfigMountOf at hs
  cases hg : fs.resolves (home ++ "/.gitconfig") with
  | none => rw [hg] at hs; simp at hs
  | some rg =>
    rw [hg] at hs
    dsimp only at hs
    by_cases hd : fs.isFile rg = true
    · rw [if_pos hd] at hs
      simp only [List.mem_cons, List.mem_singleton, List.not_mem_nil, or_false] at hs
      rcases hs with rfl | rfl
      · exact Or.inl rfl
      · refine Or.inr ⟨⟨rg ++ ":/home/paude/.gitconfig", ?_⟩, ?_⟩
        · rw [strAppendAssoc]; rfl
        · simp [mountCandidates, hg]
    · rw [if_neg hd] at hs
      simp at hs

theorem claudeJsonMountOf_shape (fs : HostFS) (home : String) :
    ∀ s ∈ claudeJsonMountOf fs home,
      s = "-v" ∨ (IsReadOnlyMountArg s ∧ s ∈ mountCandidates fs home) := by
  intro s hs
  unfold claudeJsonMountOf at hs
  cases hg : fs.resolves (home ++ "/.claude.json") with
  | none => rw [hg] at hs; simp at hs
  | some rj =>
    rw [hg] at hs
    dsimp only at hs
    by_cases hd : fs.isFile rj = true
    · rw [if_pos hd] at hs
      simp only [List.mem_cons, List.mem_singleton, List.not_mem_nil, or_false] at hs
      rcases hs with rfl | rfl
      · exact Or.inl rfl
      · refine Or.inr ⟨⟨rj ++ ":/tmp/claude.json.seed", ?_⟩, ?_⟩
        · rw [strAppendAssoc]; rfl
        · simp [mountCandidates, hg]
    · rw [if_neg hd] at hs
      simp at hs

theorem buildMounts_take_two (fs : HostFS) (ws home : String) :
    (buildMounts fs ws home).take 2 =
      ["-v", (fs.resolves ws).getD ws ++ ":" ++ (fs.resolves ws).getD ws ++ ":rw"] := by
  unfold buildMounts workspaceMountOf
  cases hw : fs.resolves ws <;> simp [hw]

theorem buildMounts_drop_two (fs : HostFS) (ws home : String) :
    (buildMounts fs ws home).drop 2 =
      gcloudMountOf fs home ++ claudeMountsOf fs home
        ++ gitconfigMountOf fs home ++ claudeJsonMountOf fs home := by
  unfold buildMounts workspaceMountOf
  cases fs.resolves ws <;> simp

/-- C10: the mount list built for the local container starts with the
workspace mounted read-write at the identical (resolved) host path, and
every other argument it can emit is either the `-v` flag or a mount marked
`:ro` drawn from the fixed candidate set (gcloud config, Claude seed
directory, plugins, gitconfig, claude.json seed); nothing else ever appears. -/
theorem build_mounts_workspace_rw_then_fixed_ro (fs : HostFS) (ws home : String) :
    (buildMounts fs ws home).take 2 =
      ["-v", (fs.resolves ws).getD ws ++ ":" ++ (fs.resolves ws).getD ws ++ ":rw"]
    ∧ ∀ s ∈ (buildMounts fs ws home).drop 2,
        s = "-v" ∨ (IsReadOnlyMountArg s ∧ s ∈ mountCandidates fs home) := by
  refine ⟨buildMounts_take_two fs ws home, ?_⟩
  intro s hs
  rw [buildMounts_drop_two] at hs
  simp only [List.mem_append] at hs
  rcases hs with ((hs | hs) | hs) | hs
  · exact gcloudMountOf_shape fs home s hs
  · exact claudeMountsOf_shape fs home s hs
  · exact gitconfigMountOf_shape fs home s hs
  · exact claudeJsonMountOf_shape fs home s hs

end Paude
